import Mathlib

/-!
Verification development for the tesseract OLAP engine sources:
a shallow embedding of the schema model, the query compiler entry point
(tesseract-core/src/lib.rs), the cube auto-detection algorithm
(tesseract-server/src/handlers/logic_layer/detection.rs), the
query-option conversion (tesseract-server/src/handlers/aggregate.rs),
and the credential check (tesseract-clickhouse/src/lib.rs).

Rust machine integers, strings and vectors are modelled as Lean
String and List; fallible Rust functions returning Result are modelled
with Except String (the source uses untyped failure::Error values whose
identity is their message text).
-/

namespace Tesseract

/-! ## Identifier model (tesseract-core names module)

The names module is declared in tesseract-core/src/lib.rs but its file
is not part of the sources; the definitions below are modelled from the
specification of the identifier model. -/

/-- The canonical three-segment path dimension.hierarchy.level that
identifies a level within a cube; equality is by the three segments. -/
structure LevelName where
  dimension : String
  hierarchy : String
  level : String
deriving DecidableEq, BEq

/-- A bare measure identifier, resolved against a cube measure list. -/
structure MeasureName where
  name : String
deriving DecidableEq, BEq

/-- Modelled from the spec: MeasureName construction is a pass-through,
no path structure is parsed. -/
def MeasureName.new (s : String) : MeasureName := ⟨s⟩

/-- Modelled from the spec: LevelName.from_vec succeeds only on exactly
three non-empty segments, otherwise it fails with a ParseError naming
the offending string. -/
def LevelName.from_vec (v : List String) : Except String LevelName :=
  match v with
  | [d, h, l] =>
      if d = "" || h = "" || l = "" then
        .error ("could not parse level name from " ++ String.intercalate "." v)
      else
        .ok ⟨d, h, l⟩
  | _ => .error ("could not parse level name from " ++ String.intercalate "." v)

/-! ## Schema metadata (tesseract-core schema module)

The schema module is declared in tesseract-core/src/lib.rs but its file
is not part of the sources; the tree below is modelled from the
specification: cubes own ordered dimensions and measures, a dimension
owns ordered hierarchies, a hierarchy owns ordered levels. -/

/-- A level of a hierarchy (only the name participates in the claims). -/
structure Level where
  name : String
deriving DecidableEq, BEq

/-- A hierarchy: a name and its ordered levels. -/
structure Hierarchy where
  name : String
  levels : List Level
deriving DecidableEq, BEq

/-- A dimension: a name and its ordered hierarchies. -/
structure Dimension where
  name : String
  hierarchies : List Hierarchy
deriving DecidableEq, BEq

/-- A measure declared by a cube: aggregator plus fact-table column. -/
structure CubeMeasure where
  name : String
  aggregator : String
  column : String
deriving DecidableEq, BEq

/-- A cube: name, ordered dimensions, ordered measures. -/
structure Cube where
  name : String
  dimensions : List Dimension
  measures : List CubeMeasure
deriving DecidableEq, BEq

/-- A schema owns an ordered sequence of cubes. -/
structure Schema where
  cubes : List Cube
deriving DecidableEq, BEq

/-- Modelled from the spec: get_all_level_names returns the full set of
three-segment level names a cube supports, in declaration order. -/
def Cube.get_all_level_names (c : Cube) : List LevelName :=
  c.dimensions.flatMap fun d =>
    d.hierarchies.flatMap fun h =>
      h.levels.map fun l => ⟨d.name, h.name, l.name⟩

/-- Modelled from the spec: get_all_measure_names returns the full set
of measure names a cube supports, in declaration order. -/
def Cube.get_all_measure_names (c : Cube) : List MeasureName :=
  c.measures.map fun m => MeasureName.new m.name

/-- Embeds Schema::cube_metadata (tesseract-core/src/lib.rs lines 33 to
38): take the first cube with the given name, or none. -/
def Schema.cube_metadata (s : Schema) (cube_name : String) : Option Cube :=
  s.cubes.find? fun c => c.name == cube_name

/-! ## Request options (tesseract-server/src/handlers/aggregate.rs)

AggregateQueryOpt is the deserialized query-string option struct,
lines 130 to 151 of aggregate.rs; every field is optional. -/

/-- The option struct AggregateQueryOpt: one Option field per recognized
query-string option, in source declaration order. -/
structure AggregateQueryOpt where
  drilldowns : Option (List String)
  cuts : Option (List String)
  measures : Option (List String)
  properties : Option (List String)
  filters : Option (List String)
  captions : Option (List String)
  parents : Option Bool
  top : Option String
  top_where : Option String
  sort : Option String
  limit : Option String
  growth : Option String
  rca : Option String
  rate : Option String
  debug : Option Bool
  exclude_default_members : Option Bool
  sparse : Option Bool
deriving DecidableEq

/-- The all-absent option struct, every field none. -/
def AggregateQueryOpt.empty : AggregateQueryOpt :=
  ⟨none, none, none, none, none, none, none, none, none, none, none,
   none, none, none, none, none, none⟩

/-- Helper for split_dot: walk the characters, cutting at every dot;
acc holds the current segment reversed. -/
def split_dot_aux : List Char → List Char → List String
  | [], acc => [String.mk acc.reverse]
  | c :: cs, acc =>
      if c = '.' then String.mk acc.reverse :: split_dot_aux cs []
      else split_dot_aux cs (c :: acc)

/-- Embeds the Rust split on the dot character: an empty string yields
one empty segment, adjacent dots yield empty segments, exactly as
str::split does. -/
def split_dot (s : String) : List String := split_dot_aux s.data []

/-! ## Cube auto-detection
(tesseract-server/src/handlers/logic_layer/detection.rs, detect_cube,
lines 101 to 189)

The three parsing loops and the cube loop are embedded as structural
recursions that mirror the source control flow: break in a parsing loop
ends that loop, continue in the cube loop moves to the next cube. -/

/-- The drilldown-parsing loop of detect_cube (detection.rs lines 102 to
116): each string is split on the dot and parsed with
LevelName::from_vec; a parse failure executes break, ending the loop and
dropping the failed entry and every entry after it. -/
def parse_drilldowns_detect : List String → List LevelName
  | [] => []
  | s :: rest =>
      match LevelName.from_vec (split_dot s) with
      | .ok ln => ln :: parse_drilldowns_detect rest
      | .error _ => []

/-- The cut-parsing loop of detect_cube (detection.rs lines 118 to 135):
each string is split on the dot, the trailing member segment is dropped,
and the remainder is parsed with LevelName::from_vec; a parse failure
executes break, ending the loop. -/
def parse_cuts_detect : List String → List LevelName
  | [] => []
  | s :: rest =>
      match LevelName.from_vec ((split_dot s).dropLast) with
      | .ok ln => ln :: parse_cuts_detect rest
      | .error _ => []

/-- The parsed drilldowns of a request, per detect_cube: an absent
drilldowns option yields the empty list. -/
def parsed_dds (q : AggregateQueryOpt) : List LevelName :=
  match q.drilldowns with
  | some ds => parse_drilldowns_detect ds
  | none => []

/-- The parsed cuts of a request, per detect_cube: an absent cuts option
yields the empty list. -/
def parsed_cts (q : AggregateQueryOpt) : List LevelName :=
  match q.cuts with
  | some cs => parse_cuts_detect cs
  | none => []

/-- The collected measure names of a request, per detect_cube (lines 137
to 146): each measure string is wrapped verbatim by MeasureName::new. -/
def parsed_meas (q : AggregateQueryOpt) : List MeasureName :=
  match q.measures with
  | some ms => ms.map MeasureName.new
  | none => []

/-- The error message of detect_cube when no cube qualifies. -/
def no_cube_msg : String :=
  "No cubes found with the requested drilldowns/cuts/measures."

/-- The cube loop of detect_cube (detection.rs lines 149 to 186): a cube
is accepted when its level-name list contains every parsed drilldown and
every parsed cut; the measure loop of the source (lines 179 to 183) only
ever breaks out of itself and never sets the exit flag, so it cannot
change the control flow and has no residue in the embedding. -/
def detect_loop (dds cts : List LevelName) : List Cube → Except String String
  | [] => .error no_cube_msg
  | c :: rest =>
      if dds.all (fun d => (c.get_all_level_names).contains d) then
        if cts.all (fun x => (c.get_all_level_names).contains x) then
          .ok c.name
        else
          detect_loop dds cts rest
      else
        detect_loop dds cts rest

/-- Embeds detect_cube (detection.rs lines 101 to 189). -/
def detect_cube (schema : Schema) (agg_query : AggregateQueryOpt) :
    Except String String :=
  detect_loop (parsed_dds agg_query) (parsed_cts agg_query) schema.cubes

/-- A cube satisfies a request when its level names contain every parsed
drilldown and every parsed cut (the acceptance test of the cube loop). -/
def cube_matches (c : Cube) (dds cts : List LevelName) : Bool :=
  dds.all (fun d => (c.get_all_level_names).contains d) &&
    cts.all (fun x => (c.get_all_level_names).contains x)

/-! ## Query intermediate representation
(tesseract-core query and names modules)

The query and names module files are not part of the sources; the
request-side types below are modelled from the specification. The field
list and field order of Query are taken from the struct literal built by
the TryFrom conversion in aggregate.rs lines 232 to 250, which is part
of the sources. -/

/-- Modelled from the spec: a Drilldown is a request to group by a
level, carrying its LevelName (the optional caption and property
requests of the spec play no part in any claim and are omitted). -/
structure Drilldown where
  level_name : LevelName
deriving DecidableEq, BEq

/-- Modelled from the spec: a Cut is a LevelName plus the member ids cut
to (the inclusive/exclusive flag plays no part in any claim and is
omitted). -/
structure Cut where
  level_name : LevelName
  members : List String
deriving DecidableEq, BEq

/-- Modelled from the spec: a requested measure is a bare name. -/
structure Measure where
  name : String
deriving DecidableEq, BEq

/-- The Query intermediate representation, fields in the order of the
struct literal in aggregate.rs lines 232 to 250. The spec gives no
internal structure for properties, filters, captions or for the top,
top_where, sort, limit, growth, rca, rate specs, so those are carried as
raw strings. -/
structure Query where
  drilldowns : List Drilldown
  cuts : List Cut
  measures : List Measure
  parents : Bool
  properties : List String
  filters : List String
  captions : List String
  top : Option String
  top_where : Option String
  sort : Option String
  limit : Option String
  rca : Option String
  growth : Option String
  debug : Bool
  rate : Option String
  sparse : Bool
  exclude_default_members : Bool
deriving DecidableEq

/-! ## Resolved column bindings and SQL generation
(tesseract-core sql module)

The sql module is declared in tesseract-core/src/lib.rs but its file is
not part of the sources; CutSql, DrilldownSql, MeasureSql and
clickhouse_sql are modelled from the specification. -/

/-- Modelled from the spec: a Cut bound to a concrete column. -/
structure CutSql where
  column : String
  members : List String
deriving DecidableEq

/-- Modelled from the spec: a Drilldown bound to a concrete column. -/
structure DrilldownSql where
  column : String
deriving DecidableEq

/-- Modelled from the spec: a measure bound to an aggregator and a
concrete column. -/
structure MeasureSql where
  aggregator : String
  column : String
deriving DecidableEq

/-- Modelled from the spec: the projected column expressions of the
generated SQL, in projection order: drilldown level columns first, then
the aggregated measure expressions, each list in request order. -/
def clickhouse_projection (drills : List DrilldownSql)
    (meas : List MeasureSql) : List String :=
  drills.map (fun d => d.column) ++
    meas.map (fun m => m.aggregator ++ "(" ++ m.column ++ ")")

/-- Modelled from the spec: clickhouse_sql, the SQL generator the sql
module exports; projection as in clickhouse_projection, source the fact
table, one IN predicate per cut conjoined in a WHERE clause, grouping by
every non-aggregated projected column. -/
def clickhouse_sql (table : String) (cuts : List CutSql)
    (drills : List DrilldownSql) (meas : List MeasureSql) : String :=
  "SELECT " ++ String.intercalate ", " (clickhouse_projection drills meas) ++
    " FROM " ++ table ++
    (if cuts.isEmpty then ""
     else " WHERE " ++ String.intercalate " AND "
       (cuts.map fun c =>
         c.column ++ " IN (" ++ String.intercalate ", " c.members ++ ")")) ++
    (if drills.isEmpty then ""
     else " GROUP BY " ++ String.intercalate ", "
       (drills.map fun d => d.column))

/-- The supported backend dialects (tesseract-core/src/lib.rs lines 110
to 112). -/
inductive Database where
  | Clickhouse
deriving DecidableEq

/-- Embeds Schema::cube_table (tesseract-core/src/lib.rs lines 96 to
98): the body is a stub that returns Some of the empty string for every
cube. -/
def Schema.cube_table (_s : Schema) (_cube : String) : Option String :=
  some ""

/-- Embeds Schema::cube_cut_cols (tesseract-core/src/lib.rs lines 99 to
101): the body is a stub that returns Ok of the empty vector. -/
def Schema.cube_cut_cols (_s : Schema) (_cube : String) (_cuts : List Cut) :
    Except String (List CutSql) :=
  .ok []

/-- Embeds Schema::cube_drill_cols (tesseract-core/src/lib.rs lines 102
to 104): the body is a stub that returns Ok of the empty vector. -/
def Schema.cube_drill_cols (_s : Schema) (_cube : String)
    (_drills : List Drilldown) : Except String (List DrilldownSql) :=
  .ok []

/-- Embeds Schema::cube_mea_cols (tesseract-core/src/lib.rs lines 105 to
107): the body is a stub that returns Ok of the empty vector. -/
def Schema.cube_mea_cols (_s : Schema) (_cube : String)
    (_mea : List Measure) : Except String (List MeasureSql) :=
  .ok []

/-- Embeds Schema::sql_query (tesseract-core/src/lib.rs lines 40 to 81):
validation first (a measure is required, then a drilldown or cut is
required), then table and column resolution, then dialect dispatch to
clickhouse_sql. The source returns Result of a String: the success value
is the SQL text alone, no header list accompanies it. -/
def Schema.sql_query (s : Schema) (cube : String) (query : Query)
    (db : Database) : Except String String :=
  if query.measures.isEmpty then
    .error "No measure found; please specify at least one"
  else if query.drilldowns.isEmpty && query.cuts.isEmpty then
    .error "Either a drilldown or cut is required"
  else
    match s.cube_table cube with
    | none => .error ("No table found for cube " ++ cube)
    | some table =>
        match s.cube_cut_cols cube query.cuts with
        | .error e => .error ("Error getting cut cols: " ++ e)
        | .ok cut_cols =>
            match s.cube_drill_cols cube query.drilldowns with
            | .error e => .error ("Error getting drill cols: " ++ e)
            | .ok drill_cols =>
                match s.cube_mea_cols cube query.measures with
                | .error e => .error ("Error getting mea cols: " ++ e)
                | .ok mea_cols =>
                    match db with
                    | .Clickhouse =>
                        .ok (clickhouse_sql table cut_cols drill_cols mea_cols)

/-- The projection of the SQL that sql_query emits, reached by the same
validation and resolution path as sql_query; none when validation or
resolution fails. Mirrors Schema.sql_query step for step. -/
def Schema.sql_query_projection (s : Schema) (cube : String)
    (query : Query) : Option (List String) :=
  if query.measures.isEmpty then
    none
  else if query.drilldowns.isEmpty && query.cuts.isEmpty then
    none
  else
    match s.cube_table cube with
    | none => none
    | some _table =>
        match s.cube_cut_cols cube query.cuts with
        | .error _ => none
        | .ok _cut_cols =>
            match s.cube_drill_cols cube query.drilldowns with
            | .error _ => none
            | .ok drill_cols =>
                match s.cube_mea_cols cube query.measures with
                | .error _ => none
                | .ok mea_cols =>
                    some (clickhouse_projection drill_cols mea_cols)

/-- Modelled from the spec: the header list the output contract of the
spec promises alongside the SQL text, one header per projected column in
projection order: the drilldown level names first, then the measure
names, each in request order. The source sql_query returns no header
list; this definition follows the words of the spec so the contract can
be compared with what the source emits. -/
def spec_header_list (query : Query) : List String :=
  query.drilldowns.map (fun d => d.level_name.level) ++
    query.measures.map (fun m => m.name)

/-! ## Conversion of AggregateQueryOpt into Query
(aggregate.rs, impl TryFrom, lines 153 to 252)

The parse methods invoked by the conversion live in the tesseract-core
names module, which is not part of the sources; they are modelled from
the identifier-model section of the spec. -/

/-- Modelled from the spec: a drilldown string parses through the
dimension.hierarchy.level grammar, split on the dot. -/
def Drilldown.parse (s : String) : Except String Drilldown :=
  (LevelName.from_vec (split_dot s)).map Drilldown.mk

/-- Modelled from the spec: a cut string carries a trailing member-id
segment beyond the LevelName path; the member segment is stripped and
retained separately. -/
def Cut.parse (s : String) : Except String Cut :=
  let parts := split_dot s
  (LevelName.from_vec parts.dropLast).map fun ln =>
    ⟨ln, [parts.getLast?.getD ""]⟩

/-- Modelled from the spec: measure parsing is a pass-through. -/
def Measure.parse (s : String) : Except String Measure :=
  .ok ⟨s⟩

/-- Modelled from the spec: the spec names the properties, filters and
captions options without giving them a grammar; their parse is carried
as a pass-through of the raw string. -/
def passthrough_parse (s : String) : Except String String :=
  .ok s

/-- Modelled from the spec: the spec gives no grammar for the top,
top_where, sort, limit, growth, rca and rate option strings; their parse
is carried as a pass-through of the raw string. -/
def spec_opt_parse (s : String) : Except String String :=
  .ok s

/-- An optional list-valued option parsed elementwise, collecting into
the first error: embeds opt.map(collect of parses).unwrap_or(Ok(vec)) of
aggregate.rs lines 157 to 191. -/
def parse_opt_list {α : Type} (p : String → Except String α) :
    Option (List String) → Except String (List α)
  | some xs => xs.mapM p
  | none => .ok []

/-- An optional scalar option parsed when present: embeds
opt.map(parse).transpose() of aggregate.rs lines 202 to 225. -/
def parse_opt_scalar (p : String → Except String String) :
    Option String → Except String (Option String)
  | some x => (p x).map some
  | none => .ok none

/-- Embeds the TryFrom conversion of AggregateQueryOpt into Query
(aggregate.rs lines 153 to 252): list options parse elementwise with
errors propagated in field order, absent boolean options default to
false via unwrap_or(false), scalar specs transpose. -/
def agg_to_query (o : AggregateQueryOpt) : Except String Query :=
  match parse_opt_list Drilldown.parse o.drilldowns with
  | .error e => .error e
  | .ok drilldowns =>
  match parse_opt_list Cut.parse o.cuts with
  | .error e => .error e
  | .ok cuts =>
  match parse_opt_list Measure.parse o.measures with
  | .error e => .error e
  | .ok measures =>
  match parse_opt_list passthrough_parse o.properties with
  | .error e => .error e
  | .ok properties =>
  match parse_opt_list passthrough_parse o.filters with
  | .error e => .error e
  | .ok filters =>
  match parse_opt_list passthrough_parse o.captions with
  | .error e => .error e
  | .ok captions =>
  match parse_opt_scalar spec_opt_parse o.top with
  | .error e => .error e
  | .ok top =>
  match parse_opt_scalar spec_opt_parse o.top_where with
  | .error e => .error e
  | .ok top_where =>
  match parse_opt_scalar spec_opt_parse o.sort with
  | .error e => .error e
  | .ok sort =>
  match parse_opt_scalar spec_opt_parse o.limit with
  | .error e => .error e
  | .ok limit =>
  match parse_opt_scalar spec_opt_parse o.growth with
  | .error e => .error e
  | .ok growth =>
  match parse_opt_scalar spec_opt_parse o.rca with
  | .error e => .error e
  | .ok rca =>
  match parse_opt_scalar spec_opt_parse o.rate with
  | .error e => .error e
  | .ok rate =>
  .ok ⟨drilldowns, cuts, measures, o.parents.getD false, properties,
       filters, captions, top, top_where, sort, limit, rca, growth,
       o.debug.getD false, rate, o.sparse.getD false,
       o.exclude_default_members.getD false⟩

/-! ## Credential check (tesseract-clickhouse/src/lib.rs, check_user,
lines 88 to 113)

The asynchronous wrapper fetches one block of session settings; the
claims concern the pure settings-inspection step, embedded here over the
extracted names and values rows. The unwrap calls of the source are
modelled with Option: none stands for the panic that a misaligned block
would cause, some for normal completion. The Bool records whether the
write-access warning was logged; the Except Unit is the value the
closure returns, Ok of unit on every path. -/

/-- The settings-inspection step of check_user: when both the readonly
and the allow_ddl settings are present, their values are read at the
positions found in the names row; write access is diagnosed when
readonly is not the string 1 and allow_ddl is not the string 0, or when
either setting is absent; in every case the closure returns Ok of
unit. -/
def check_user_settings (names values : List String) :
    Option (Bool × Except String Unit) :=
  if names.contains "readonly" && names.contains "allow_ddl" then
    match values[names.indexOf "readonly"]?, values[names.indexOf "allow_ddl"]? with
    | some rd_value, some ad_value =>
        some (rd_value != "1" && ad_value != "0", .ok ())
    | _, _ => none
  else
    some (true, .ok ())

/-! ## Concrete fixtures used by witnesses and counterexamples -/

/-- A drilldown on the state level of the geo dimension. -/
def dd_state : Drilldown := ⟨⟨"geo", "geo", "state"⟩⟩

/-- The revenue measure request. -/
def mea_revenue : Measure := ⟨"revenue"⟩

/-- A query with one drilldown and one measure, every flag defaulted. -/
def q_sales : Query :=
  { drilldowns := [dd_state], cuts := [], measures := [mea_revenue],
    parents := false, properties := [], filters := [], captions := [],
    top := none, top_where := none, sort := none, limit := none,
    rca := none, growth := none, debug := false, rate := none,
    sparse := false, exclude_default_members := false }

/-- q_sales with the measure list emptied. -/
def q_no_measure : Query := { q_sales with measures := [] }

/-- q_sales with drilldowns and cuts emptied. -/
def q_no_drill_cut : Query := { q_sales with drilldowns := [], cuts := [] }

/-- A cube named A that declares no levels at all. -/
def cube_A : Cube := ⟨"A", [], []⟩

/-- A cube named B whose single level has the full name a.b.c. -/
def cube_B : Cube := ⟨"B", [⟨"a", [⟨"b", [⟨"c"⟩]⟩]⟩], []⟩

/-- A schema declaring cube A before cube B. -/
def schema_AB : Schema := ⟨[cube_A, cube_B]⟩

/-- A request whose drilldown list holds a malformed entry followed by a
well-formed one. -/
def q_mixed_drilldowns : AggregateQueryOpt :=
  { AggregateQueryOpt.empty with drilldowns := some ["xx", "a.b.c"] }

/-- A request drilling down on a.b.c only. -/
def q_abc : AggregateQueryOpt :=
  { AggregateQueryOpt.empty with drilldowns := some ["a.b.c"] }

/-- First of two cubes sharing the name dup, carrying measure m1. -/
def cube_dup1 : Cube := ⟨"dup", [], [⟨"m1", "sum", "col1"⟩]⟩

/-- Second of two cubes sharing the name dup, carrying measure m2. -/
def cube_dup2 : Cube := ⟨"dup", [], [⟨"m2", "sum", "col2"⟩]⟩

/-- A schema with duplicate cube names: dup occurs twice, then A. -/
def schema_dup : Schema := ⟨[cube_dup1, cube_dup2, cube_A]⟩

/-! ## Claim C2 -/

/-- Claim C2: for every Query whose measures list is empty, sql_query
fails with the no-measure validation error, regardless of the values of
all other Query fields. -/
theorem sql_query_no_measure_error (s : Schema) (cube : String) (q : Query)
    (db : Database) (h : q.measures = []) :
    s.sql_query cube q db =
      .error "No measure found; please specify at least one" := by
  simp [Schema.sql_query, h]

/-- Witness for claim C2 at a concrete schema and query. -/
theorem sql_query_no_measure_error_witness :
    Schema.sql_query ⟨[]⟩ "sales" q_no_measure Database.Clickhouse =
      .error "No measure found; please specify at least one" :=
  sql_query_no_measure_error ⟨[]⟩ "sales" q_no_measure Database.Clickhouse rfl

/-! ## Claim C3 -/

/-- Claim C3: for every Query with at least one measure but empty
drilldowns and empty cuts, sql_query fails with the
drilldown-or-cut-required validation error. -/
theorem sql_query_drill_or_cut_error (s : Schema) (cube : String) (q : Query)
    (db : Database) (hm : q.measures ≠ []) (hd : q.drilldowns = [])
    (hc : q.cuts = []) :
    s.sql_query cube q db =
      .error "Either a drilldown or cut is required" := by
  simp [Schema.sql_query, hd, hc, List.isEmpty_iff, hm]

/-- Witness for claim C3 at a concrete schema and query. -/
theorem sql_query_drill_or_cut_error_witness :
    Schema.sql_query ⟨[]⟩ "sales" q_no_drill_cut Database.Clickhouse =
      .error "Either a drilldown or cut is required" :=
  sql_query_drill_or_cut_error ⟨[]⟩ "sales" q_no_drill_cut Database.Clickhouse
    (by decide) rfl rfl

/-! ## Claim C1

The source sql_query (tesseract-core/src/lib.rs lines 40 to 81) returns
Result of String: its success value is the SQL text alone and no header
list accompanies it, while the claim promises a header list matching the
projected columns. Moreover the column resolvers of the source (lines 96
to 107) are stubs returning empty vectors, so the emitted SQL projects
no column of the query: the promised header-list contract cannot hold of
this code. -/

/-- Counterexample to claim C1: at the concrete query q_sales (one
drilldown, one measure) sql_query succeeds, but its success value is the
SQL text alone, whose projection is empty, while the header list the
spec contract describes has two entries; no header list of length equal
to the projected-column count is (or could be) returned. -/
theorem sql_query_header_contract_cex :
    Schema.sql_query ⟨[]⟩ "sales" q_sales Database.Clickhouse =
      .ok (clickhouse_sql "" [] [] []) ∧
    Schema.sql_query_projection ⟨[]⟩ "sales" q_sales = some [] ∧
    spec_header_list q_sales = ["state", "revenue"] ∧
    (spec_header_list q_sales).length ≠
      ((Schema.sql_query_projection ⟨[]⟩ "sales" q_sales).getD []).length :=
  ⟨rfl, rfl, rfl, by decide⟩

/-- Claim C1 as amended: for every Query with at least one measure and
at least one of drilldown or cut, sql_query succeeds and returns a
non-empty SQL string; the source returns no header list alongside it. -/
theorem sql_query_success_nonempty (s : Schema) (cube : String) (q : Query)
    (db : Database) (hm : q.measures ≠ [])
    (hdc : ¬(q.drilldowns = [] ∧ q.cuts = [])) :
    ∃ sql, s.sql_query cube q db = .ok sql ∧ sql ≠ "" := by
  cases db
  refine ⟨clickhouse_sql "" [] [] [], ?_, by decide⟩
  have hm' : q.measures.isEmpty = false := by
    simp [List.isEmpty_iff, hm]
  have hdc' : (q.drilldowns.isEmpty && q.cuts.isEmpty) = false := by
    rcases not_and_or.mp hdc with h | h <;>
      simp [List.isEmpty_iff, h]
  simp [Schema.sql_query, hm', hdc', Schema.cube_table, Schema.cube_cut_cols,
    Schema.cube_drill_cols, Schema.cube_mea_cols]

/-- Witness for the amended claim C1 at a concrete schema and query. -/
theorem sql_query_success_nonempty_witness :
    ∃ sql, Schema.sql_query ⟨[]⟩ "sales" q_sales Database.Clickhouse =
      .ok sql ∧ sql ≠ "" :=
  sql_query_success_nonempty ⟨[]⟩ "sales" q_sales Database.Clickhouse
    (by decide) (by decide)

/-! ## The cube loop as a first-match search -/

/-- The cube loop of detect_cube returns the first cube accepted by
cube_matches, and the NotFound error when none is. -/
theorem detect_loop_eq_find (dds cts : List LevelName) (cubes : List Cube) :
    detect_loop dds cts cubes =
      match cubes.find? (fun c => cube_matches c dds cts) with
      | some c => Except.ok c.name
      | none => Except.error no_cube_msg := by
  induction cubes with
  | nil => rfl
  | cons c rest ih =>
      by_cases h1 : dds.all (fun d => (c.get_all_level_names).contains d) = true
      · by_cases h2 : cts.all (fun x => (c.get_all_level_names).contains x) = true
        · have hcm : cube_matches c dds cts = true := by
            simp [cube_matches, h1, h2]
          simp [detect_loop, h1, h2, List.find?_cons_of_pos, hcm]
        · have hcm : cube_matches c dds cts = false := by
            simp [cube_matches, h2]
          simp [detect_loop, h1, h2, List.find?_cons_of_neg, hcm, ih]
      · have hcm : cube_matches c dds cts = false := by
          simp [cube_matches, h1]
        simp [detect_loop, h1, List.find?_cons_of_neg, hcm, ih]

/-! ## Claim C4 -/

/-- Claim C4: detect_cube examines cubes in schema declaration order and
returns the first cube whose level names contain every parsed drilldown
and every parsed cut; the requested measures never reject a cube (the
measure loop of the source only breaks out of its own check), so the
result is invariant under any change of the measures option. -/
theorem detect_cube_first_match (s : Schema) (q : AggregateQueryOpt) :
    (detect_cube s q =
      match s.cubes.find?
          (fun c => cube_matches c (parsed_dds q) (parsed_cts q)) with
      | some c => Except.ok c.name
      | none => Except.error no_cube_msg) ∧
    (∀ ms : Option (List String),
      detect_cube s { q with measures := ms } = detect_cube s q) :=
  ⟨detect_loop_eq_find (parsed_dds q) (parsed_cts q) s.cubes,
   fun _ => rfl⟩

/-! ## Claim C6 -/

/-- Claim C6: detect_cube fails with the NotFound error exactly when no
cube of the schema has a level-name set containing all parsed drilldowns
and all parsed cuts. -/
theorem detect_cube_notfound_iff (s : Schema) (q : AggregateQueryOpt) :
    detect_cube s q = Except.error no_cube_msg ↔
      ∀ c ∈ s.cubes, cube_matches c (parsed_dds q) (parsed_cts q) = false := by
  have h := detect_loop_eq_find (parsed_dds q) (parsed_cts q) s.cubes
  unfold detect_cube
  rw [h]
  cases hf : s.cubes.find? (fun c => cube_matches c (parsed_dds q) (parsed_cts q)) with
  | none =>
      simp only [List.find?_eq_none, Bool.not_eq_true] at hf
      exact iff_of_true rfl hf
  | some c =>
      have hcm := List.find?_some hf
      have hmem : c ∈ s.cubes := List.mem_of_find?_eq_some hf
      refine iff_of_false (by simp) fun hall => ?_
      simp only [hall c hmem] at hcm
      exact Bool.false_ne_true hcm

/-- Witness for claim C6: a schema whose only cube declares no levels
cannot satisfy a drilldown on a.b.c, so detect_cube fails with the
NotFound error there. -/
theorem detect_cube_notfound_iff_witness :
    detect_cube ⟨[cube_A]⟩ q_abc = Except.error no_cube_msg :=
  (detect_cube_notfound_iff ⟨[cube_A]⟩ q_abc).mpr (by
    intro c hc
    have : c = cube_A := by simpa using hc
    subst this
    rfl)

/-! ## Claim C9 -/

/-- Claim C9: for every schema with at least one cube, detect_cube on a
request whose drilldowns, cuts and measures are all absent or empty
succeeds and returns the name of the first cube of the schema. -/
theorem detect_cube_empty_request (s : Schema) (q : AggregateQueryOpt)
    (c : Cube) (cs : List Cube) (hcubes : s.cubes = c :: cs)
    (hd : q.drilldowns = none ∨ q.drilldowns = some [])
    (hc : q.cuts = none ∨ q.cuts = some [])
    (_hm : q.measures = none ∨ q.measures = some []) :
    detect_cube s q = Except.ok c.name := by
  have hdd : parsed_dds q = [] := by
    rcases hd with h | h <;> simp [parsed_dds, h, parse_drilldowns_detect]
  have hct : parsed_cts q = [] := by
    rcases hc with h | h <;> simp [parsed_cts, h, parse_cuts_detect]
  unfold detect_cube
  rw [hdd, hct, hcubes]
  simp [detect_loop]

/-- Witness for claim C9: the schema declaring cube A then cube B, with
the all-absent request, detects cube A. -/
theorem detect_cube_empty_request_witness :
    detect_cube schema_AB AggregateQueryOpt.empty = Except.ok cube_A.name :=
  detect_cube_empty_request schema_AB AggregateQueryOpt.empty cube_A [cube_B]
    rfl (Or.inl rfl) (Or.inl rfl) (Or.inl rfl)

/-! ## Claim C5

The drilldown-parsing loop of detect_cube (detection.rs lines 102 to
116) does not skip a malformed entry: the failing match arm executes
break, which ends the whole loop, so the malformed entry and every entry
after it are dropped, while entries before it are kept. The claim that
all other entries are still parsed and used is false whenever a
well-formed entry follows a malformed one. -/

/-- Counterexample to claim C5: the request lists the malformed
drilldown xx followed by the well-formed a.b.c. The claim predicts that
a.b.c is still parsed and used, which would make cube A (no levels)
unacceptable and select cube B (which declares a.b.c). The code parses
neither entry and returns cube A: the well-formed entry following the
malformed one is not used. -/
theorem detect_drilldown_skip_cex :
    parse_drilldowns_detect ["xx", "a.b.c"] = [] ∧
    LevelName.from_vec (split_dot "a.b.c") = Except.ok ⟨"a", "b", "c"⟩ ∧
    cube_matches cube_A [⟨"a", "b", "c"⟩] [] = false ∧
    cube_matches cube_B [⟨"a", "b", "c"⟩] [] = true ∧
    detect_cube schema_AB q_mixed_drilldowns = Except.ok "A" :=
  ⟨rfl, rfl, rfl, rfl, rfl⟩

/-- Claim C5 as amended: a drilldown string that fails to parse as a
three-segment LevelName ends drilldown parsing at that point: it and
every later drilldown string are dropped, the strings before it are kept
in order, and the call is not rejected. -/
theorem parse_drilldowns_detect_break (pre : List String) (bad : String)
    (rest : List String)
    (hpre : ∀ s ∈ pre, ∃ ln, LevelName.from_vec (split_dot s) = Except.ok ln)
    (hbad : ∃ e, LevelName.from_vec (split_dot bad) = Except.error e) :
    parse_drilldowns_detect (pre ++ bad :: rest) =
      parse_drilldowns_detect pre := by
  induction pre with
  | nil =>
      obtain ⟨e, he⟩ := hbad
      simp [parse_drilldowns_detect, he]
  | cons s ss ih =>
      obtain ⟨ln, hln⟩ := hpre s (List.mem_cons_self s ss)
      simp only [List.cons_append, parse_drilldowns_detect, hln]
      exact congrArg (fun xs => ln :: xs)
        (ih fun t ht => hpre t (List.mem_cons_of_mem s ht))

/-- Witness for the amended claim C5: the entry before the malformed one
is kept, the malformed entry and the well-formed entry after it are
dropped. -/
theorem parse_drilldowns_detect_break_witness :
    parse_drilldowns_detect (["a.b.c"] ++ "xx" :: ["d.e.f"]) =
      parse_drilldowns_detect ["a.b.c"] :=
  parse_drilldowns_detect_break ["a.b.c"] "xx" ["d.e.f"]
    (by
      intro s hs
      have : s = "a.b.c" := by simpa using hs
      subst this
      exact ⟨⟨"a", "b", "c"⟩, rfl⟩)
    ⟨"could not parse level name from xx", rfl⟩

/-! ## Claim C7 -/

/-- A first-match characterization of find? over cubes by name: a found
cube bears the searched name and sits at a position before which no cube
bears it; find? returns none exactly when no cube bears the name. -/
theorem find_cube_by_name_spec (l : List Cube) (n : String) :
    (∀ c, l.find? (fun c => c.name == n) = some c → c.name = n ∧
      ∃ i, i < l.length ∧ l[i]? = some c ∧
        ∀ j c₂, j < i → l[j]? = some c₂ → c₂.name ≠ n) ∧
    (l.find? (fun c => c.name == n) = none ↔ ∀ c ∈ l, c.name ≠ n) := by
  induction l with
  | nil => simp
  | cons a l ih =>
      by_cases ha : a.name = n
      · constructor
        · intro c hc
          rw [List.find?_cons_of_pos _ (by simpa using ha)] at hc
          obtain rfl : a = c := by simpa using hc
          exact ⟨ha, 0, by simp, by simp, by omega⟩
        · rw [List.find?_cons_of_pos _ (by simpa using ha)]
          simp [ha]
      · constructor
        · intro c hc
          rw [List.find?_cons_of_neg _ (by simpa using ha)] at hc
          obtain ⟨hname, i, hi, hget, hbefore⟩ := ih.1 c hc
          refine ⟨hname, i + 1, by simpa using hi, by simpa using hget, ?_⟩
          intro j c₂ hj hjget
          cases j with
          | zero =>
              obtain rfl : a = c₂ := by simpa using hjget
              exact ha
          | succ j' =>
              exact hbefore j' c₂ (by omega) (by simpa using hjget)
        · rw [List.find?_cons_of_neg _ (by simpa using ha)]
          simp [ih.2, ha]

/-- Claim C7: cube_metadata returns the first cube in schema declaration
order whose name equals the given string, and none when no cube has that
name; with duplicate cube names the first match wins and no failure
occurs. -/
theorem cube_metadata_first_match (s : Schema) (n : String) :
    (∀ c, s.cube_metadata n = some c → c.name = n ∧
      ∃ i, i < s.cubes.length ∧ s.cubes[i]? = some c ∧
        ∀ j c₂, j < i → s.cubes[j]? = some c₂ → c₂.name ≠ n) ∧
    (s.cube_metadata n = none ↔ ∀ c ∈ s.cubes, c.name ≠ n) :=
  find_cube_by_name_spec s.cubes n

/-- Witness for claim C7 on a schema with two cubes both named dup: the
lookup returns the first of the two, whose position carries no earlier
cube of that name. -/
theorem cube_metadata_first_match_witness :
    cube_dup1.name = "dup" ∧
    ∃ i, i < schema_dup.cubes.length ∧ schema_dup.cubes[i]? = some cube_dup1 ∧
      ∀ j c₂, j < i → schema_dup.cubes[j]? = some c₂ → c₂.name ≠ "dup" :=
  (cube_metadata_first_match schema_dup "dup").1 cube_dup1 rfl

/-! ## Claim C8 -/

/-- Claim C8: whenever check_user obtains a session-settings result (a
names row and a values row of equal length), the settings-inspection
step completes with Ok of unit for some warning flag; apparent write
access (readonly not 1 and allow_ddl not 0, or either setting absent)
only drives the flag and never makes the call fail. -/
theorem check_user_write_access_soft (names values : List String)
    (h : names.length = values.length) :
    ∃ w : Bool, check_user_settings names values = some (w, Except.ok ()) := by
  unfold check_user_settings
  by_cases hc : (names.contains "readonly" && names.contains "allow_ddl") = true
  · rw [if_pos hc]
    obtain ⟨h1, h2⟩ := Bool.and_eq_true_iff.mp hc
    have m1 : "readonly" ∈ names := by simpa using h1
    have m2 : "allow_ddl" ∈ names := by simpa using h2
    have i1 : names.indexOf "readonly" < values.length :=
      h ▸ List.indexOf_lt_length.mpr m1
    have i2 : names.indexOf "allow_ddl" < values.length :=
      h ▸ List.indexOf_lt_length.mpr m2
    rw [List.getElem?_eq_getElem i1, List.getElem?_eq_getElem i2]
    exact ⟨_, rfl⟩
  · rw [if_neg hc]
    exact ⟨true, rfl⟩

/-- Witness for claim C8: a session whose readonly setting is 0 and
whose allow_ddl setting is 1 shows apparent write access; the step still
completes with Ok of unit. -/
theorem check_user_write_access_soft_witness :
    ∃ w : Bool, check_user_settings ["readonly", "allow_ddl"] ["0", "1"] =
      some (w, Except.ok ()) :=
  check_user_write_access_soft ["readonly", "allow_ddl"] ["0", "1"] rfl

/-! ## Claim C10 -/

/-- Claim C10: when the conversion of an AggregateQueryOpt into a Query
succeeds, each of the boolean options parents, debug, sparse and
exclude_default_members that is absent from the request is false in the
resulting Query. -/
theorem agg_to_query_bool_defaults (o : AggregateQueryOpt) (q : Query)
    (h : agg_to_query o = Except.ok q) :
    (o.parents = none → q.parents = false) ∧
    (o.debug = none → q.debug = false) ∧
    (o.sparse = none → q.sparse = false) ∧
    (o.exclude_default_members = none → q.exclude_default_members = false) := by
  unfold agg_to_query at h
  iterate 13 (all_goals try split at h)
  all_goals
    first
    | exact Except.noConfusion h
    | (injection h with h
       subst h
       exact ⟨fun hp => by simp [hp], fun hd => by simp [hd],
              fun hs => by simp [hs], fun he => by simp [he]⟩)

/-- Witness for claim C10 at the all-absent option struct: the
conversion succeeds and every defaulted boolean is false. -/
theorem agg_to_query_bool_defaults_witness :
    (AggregateQueryOpt.empty.parents = none →
      (Query.mk [] [] [] false [] [] [] none none none none none none false
        none false false).parents = false) ∧
    (AggregateQueryOpt.empty.debug = none →
      (Query.mk [] [] [] false [] [] [] none none none none none none false
        none false false).debug = false) ∧
    (AggregateQueryOpt.empty.sparse = none →
      (Query.mk [] [] [] false [] [] [] none none none none none none false
        none false false).sparse = false) ∧
    (AggregateQueryOpt.empty.exclude_default_members = none →
      (Query.mk [] [] [] false [] [] [] none none none none none none false
        none false false).exclude_default_members = false) :=
  agg_to_query_bool_defaults AggregateQueryOpt.empty
    (Query.mk [] [] [] false [] [] [] none none none none none none false
      none false false) rfl

end Tesseract
